import Mathlib

/-!
# Freshness Engine — shallow embedding and verification

Shallow embedding of the kitchen-command-center backend's Freshness Engine
(`app/services/freshness.py`) and Notification Service
(`app/services/notifications.py`), with the data model of
`app/models/pantry.py`, `app/models/waste.py` and `app/models/meal_plan.py`.

Dates are modelled as integers (days since an arbitrary epoch); `date.today()`
becomes an explicit `today : Int` parameter.  Nullable columns and Python
`None` become `Option`.  Python truthiness of an optional integer column
(`if rule.opened_shelf_life_days:`) is `some n` with `n ≠ 0`; truthiness of an
optional `date` or non-empty-string check is `Option.isSome` / `≠ ""`.
The external AI estimator is an oracle parameter returning `Except Unit`;
`Except.error` models any raised exception or unparseable output.
-/

namespace KitchenCC

/-- Python `str.lower()`, modelled character-wise (the repository's names and
locations are ASCII). -/
def pyToLower (s : String) : String := String.mk (s.data.map Char.toLower)

/-- Python `str.strip()`: drop leading and trailing whitespace. -/
def pyStrip (s : String) : String :=
  String.mk
    (((s.data.dropWhile Char.isWhitespace).reverse.dropWhile
        Char.isWhitespace).reverse)

/-- Python truthiness of an `Integer` column value (`None` and `0` falsy). -/
def intTruthy : Option Int → Bool
  | some n => n != 0
  | none => false

/-- `app/models/pantry.py` `PantryItem` — the columns the Freshness Engine
reads or writes.  `id` stands in for the UUID primary key. -/
structure PantryItem where
  id : Nat
  name : String
  canonical_name : Option String
  category : Option String
  location : Option String
  expiration_date : Option Int
  opened_date : Option Int
  purchase_date : Option Int
  freshness_status : Option String
  freshness_expires_at : Option Int
  deriving Repr, DecidableEq

/-- `app/models/waste.py` `FreshnessRule` — per-ingredient shelf-life rule,
unique by `canonical_name`. -/
structure FreshnessRule where
  canonical_name : String
  category : Option String
  sealed_shelf_life_days : Option Int
  opened_shelf_life_days : Option Int
  storage_location : Option String
  storage_tips : Option String
  freezable : Option Bool
  frozen_shelf_life_days : Option Int
  source : Option String
  deriving Repr, DecidableEq

/-- `DEFAULT_SHELF_LIFE` table from `freshness.py`: category ->
(sealed_days, opened_days); lookup misses handled by the caller's
`.get(category, (30, 14))`. -/
def DEFAULT_SHELF_LIFE : String → Option (Int × Int)
  | "produce" => some (7, 4)
  | "dairy" => some (14, 7)
  | "meat" => some (5, 3)
  | "seafood" => some (3, 2)
  | "grains" => some (365, 180)
  | "spices" => some (730, 365)
  | "canned" => some (730, 5)
  | "frozen" => some (180, 90)
  | "condiments" => some (365, 90)
  | "baking" => some (365, 180)
  | "beverages" => some (365, 7)
  | "snacks" => some (90, 14)
  | "oils" => some (365, 180)
  | "asian_pantry" => some (365, 90)
  | "latin_pantry" => some (365, 90)
  | "preserved" => some (365, 30)
  | "alcohol" => some (730, 365)
  | _ => none

/-- `_status_from_days_remaining` from `freshness.py`. -/
def statusFromDaysRemaining (days_left : Int) : String :=
  if days_left ≤ 0 then "expired"
  else if days_left ≤ 1 then "use_today"
  else if days_left ≤ 4 then "use_soon"
  else "fresh"

/-- `item.location and item.location.lower() == "freezer"` from
`freshness.py` line 99. -/
def isFreezerLocation : Option String → Bool
  | some s => pyToLower s == "freezer"
  | none => false

/-- `calculate_freshness_rule_based` from `freshness.py` (lines 54-106).
Returns `(freshness_status, effective_expiration_date)`; `today` replaces
`date.today()`. -/
def calculate_freshness_rule_based (today : Int) (item : PantryItem)
    (rule : Option FreshnessRule) : String × Option Int :=
  match rule with
  | some r =>
    -- exact-rule branch (lines 65-80)
    let step : Option Int :=
      if item.opened_date.isSome && intTruthy r.opened_shelf_life_days then
        some (item.opened_date.getD 0 + r.opened_shelf_life_days.getD 0)
      else if item.purchase_date.isSome && intTruthy r.sealed_shelf_life_days then
        some (item.purchase_date.getD 0 + r.sealed_shelf_life_days.getD 0)
      else
        item.expiration_date
    match step with
    | none => ("fresh", none)
    | some e0 =>
      let e1 :=
        match item.expiration_date with
        | some printed => min e0 printed
        | none => e0
      (statusFromDaysRemaining (e1 - today), some e1)
  | none =>
    -- category-defaults branch (lines 82-106)
    let cat := pyToLower (item.category.getD "")
    let sd := (DEFAULT_SHELF_LIFE cat).getD (30, 14)
    let step : Option Int :=
      if item.opened_date.isSome then
        some (item.opened_date.getD 0 + sd.2)
      else if item.purchase_date.isSome then
        some (item.purchase_date.getD 0 + sd.1)
      else
        item.expiration_date
    match step with
    | none => ("fresh", none)
    | some e0 =>
      let e1 :=
        match item.expiration_date with
        | some printed => min e0 printed
        | none => e0
      let e2 :=
        if isFreezerLocation item.location then
          match item.purchase_date with
          | some pd => max e1 (pd + 180)
          | none => e1
        else e1
      (statusFromDaysRemaining (e2 - today), some e2)

/-- Parsed shape of the external estimator's JSON reply, as consumed by
`update_item_freshness`.  `effective_expiration_date`: `none` = key absent or
empty string (falsy), `some none` = present but not ISO-parseable
(`ValueError` branch), `some (some d)` = parses to day `d`. -/
structure AIResult where
  freshness_status : Option String
  effective_expiration_date : Option (Option Int)
  storage_tips : Option String
  deriving Repr, DecidableEq

/-- The external estimator as an oracle: `Except.error` models any raised
exception (network failure, `json.loads` failure on unparseable output, or
the `TypeError` from the `rule=`/`rules=` keyword mismatch in the call to
`KitchenAI.calculate_freshness`). -/
def AIOracle : Type := PantryItem → Except Unit AIResult

/-- `(item.canonical_name or "").lower().strip()` from
`update_item_freshness`. -/
def canonicalOf (item : PantryItem) : String :=
  pyStrip (pyToLower (item.canonical_name.getD ""))

/-- The rule lookup `db.query(FreshnessRule).filter(canonical_name == c).first()`;
the rule table is modelled as a list in insertion order. -/
def lookupRule (rules : List FreshnessRule) (canonical : String) :
    Option FreshnessRule :=
  rules.find? (fun r => r.canonical_name == canonical)

/-- Rule chosen for an item in `update_item_freshness` (lines 124-128):
lookup only if the canonical name is non-empty. -/
def ruleFor (rules : List FreshnessRule) (item : PantryItem) :
    Option FreshnessRule :=
  if canonicalOf item != "" then lookupRule rules (canonicalOf item) else none

/-- The `FreshnessRule(...)` row built by `_cache_freshness_rule`
(lines 202-227): shelf lives derived from the AI's effective date and the
item's own purchase/opened dates. -/
def newFreshnessRule (canonical : String) (item : PantryItem)
    (ai_result : AIResult) : FreshnessRule :=
  let exp_date : Option Int :=
    match ai_result.effective_expiration_date with
    | some (some d) => some d
    | _ => none
  let sealed_days : Option Int :=
    match exp_date, item.purchase_date, item.opened_date with
    | some e, some p, none => some (e - p)
    | _, _, _ => none
  let opened_days : Option Int :=
    match exp_date, item.opened_date with
    | some e, some o => some (e - o)
    | _, _ => none
  { canonical_name := canonical
    category := item.category
    sealed_shelf_life_days := sealed_days
    opened_shelf_life_days := opened_days
    storage_location := item.location
    storage_tips := ai_result.storage_tips
    freezable := none
    frozen_shelf_life_days := none
    source := some "AI estimate" }

/-- `_cache_freshness_rule` from `freshness.py` (lines 195-233).  `db.add` +
`db.flush` with the unique-by-name constraint: a conflicting insert raises in
`flush`, is caught, and the rollback discards the pending row — modelled as
leaving the table unchanged when the name already exists. -/
def cache_freshness_rule (rules : List FreshnessRule) (canonical : String)
    (item : PantryItem) (ai_result : AIResult) : List FreshnessRule :=
  if rules.any (fun r => r.canonical_name == canonical) then rules
  else rules ++ [newFreshnessRule canonical item ai_result]

/-- The summary dict returned by `update_item_freshness` (lines 185-192). -/
structure UpdateResult where
  item_id : Nat
  name : String
  old_status : Option String
  new_status : Option String
  effective_expiration : Option Int
  changed : Bool
  deriving Repr, DecidableEq

/-- `update_item_freshness` from `freshness.py` (lines 109-192), returning the
updated item, the updated rule table, and the summary dict. -/
def update_item_freshness (today : Int) (rules : List FreshnessRule)
    (ai : Option AIOracle) (force_ai : Bool) (item : PantryItem) :
    PantryItem × List FreshnessRule × UpdateResult :=
  let rule := ruleFor rules item
  let old_status := item.freshness_status
  let fallback : PantryItem × List FreshnessRule :=
    let se := calculate_freshness_rule_based today item none
    ({ item with freshness_status := some se.1, freshness_expires_at := se.2 },
     rules)
  let stepped : PantryItem × List FreshnessRule :=
    if rule.isSome && !force_ai then
      let se := calculate_freshness_rule_based today item rule
      ({ item with freshness_status := some se.1, freshness_expires_at := se.2 },
       rules)
    else
      match ai with
      | some oracle =>
        if force_ai || rule.isNone then
          match oracle item with
          | .ok result =>
            let item1 := { item with
              freshness_status := some (result.freshness_status.getD "fresh") }
            let item2 :=
              match result.effective_expiration_date with
              | some (some d) => { item1 with freshness_expires_at := some d }
              | _ => item1
            let rules2 :=
              if rule.isNone && canonicalOf item != "" then
                cache_freshness_rule rules (canonicalOf item) item result
              else rules
            (item2, rules2)
          | .error _ => fallback
        else fallback
      | none => fallback
  (stepped.1, stepped.2,
   { item_id := stepped.1.id
     name := stepped.1.name
     old_status := old_status
     new_status := stepped.1.freshness_status
     effective_expiration := stepped.1.freshness_expires_at
     changed := old_status != stepped.1.freshness_status })

/-- `item.purchase_date or item.opened_date or item.expiration_date`
(line 255): the selection predicate of the scan. -/
def hasDateInfo (item : PantryItem) : Bool :=
  item.purchase_date.isSome || item.opened_date.isSome ||
    item.expiration_date.isSome

/-- `result["new_status"] in ("use_today", "expired")` (line 263). -/
def isAlertStatus : Option String → Bool
  | some s => s == "use_today" || s == "expired"
  | none => false

/-- Alert record built by the scan loop (lines 264-269). -/
structure FreshnessAlert where
  item_id : Nat
  name : String
  status : Option String
  old_status : Option String
  deriving Repr, DecidableEq

/-- Scan summary (lines 271-276). -/
structure ScanSummary where
  items_scanned : Nat
  items_changed : Nat
  alerts : List FreshnessAlert
  details : List UpdateResult
  deriving Repr, DecidableEq

/-- The scan loop of `run_freshness_scan` (lines 253-269): processes items in
order, threading the rule table; returns updated items (same order), final
rule table, detail list, change count and alert list as accumulated by the
loop body. -/
def run_freshness_scan_loop (today : Int) (ai : Option AIOracle) :
    List PantryItem → List FreshnessRule →
    List PantryItem × List FreshnessRule × List UpdateResult × Nat ×
      List FreshnessAlert
  | [], rules => ([], rules, [], 0, [])
  | item :: rest, rules =>
    if hasDateInfo item then
      let step := update_item_freshness today rules ai false item
      let tail := run_freshness_scan_loop today ai rest step.2.1
      let res := step.2.2
      (step.1 :: tail.1, tail.2.1, res :: tail.2.2.1,
       (if res.changed then 1 else 0) + tail.2.2.2.1,
       (if res.changed && isAlertStatus res.new_status then
          [{ item_id := res.item_id, name := res.name,
             status := res.new_status, old_status := res.old_status }]
        else []) ++ tail.2.2.2.2)
    else
      let tail := run_freshness_scan_loop today ai rest rules
      (item :: tail.1, tail.2.1, tail.2.2.1, tail.2.2.2.1, tail.2.2.2.2)

/-- `run_freshness_scan` from `freshness.py` (lines 235-276). -/
def run_freshness_scan (today : Int) (rules : List FreshnessRule)
    (ai : Option AIOracle) (items : List PantryItem) :
    List PantryItem × List FreshnessRule × ScanSummary :=
  let loop := run_freshness_scan_loop today ai items rules
  (loop.1, loop.2.1,
   { items_scanned := loop.2.2.1.length
     items_changed := loop.2.2.2.1
     alerts := loop.2.2.2.2
     details := loop.2.2.1 })

/-! ## Notification store (`app/services/notifications.py`) -/

/-- The keys a generator puts in a notification dict before the store adds
`id`, `created_at` and `read`. -/
structure NotifPayload where
  ntype : String
  severity : String
  title : String
  message : String
  deriving Repr, DecidableEq

/-- A stored notification entry. -/
structure Notification where
  id : String
  created_at : Int
  read : Bool
  payload : NotifPayload
  deriving Repr, DecidableEq

/-- `_add_notification` (lines 23-33) acting on one user's feed; the fresh
`uuid4` id and the current timestamp are passed in as parameters. -/
def add_notification (feed : List Notification) (payload : NotifPayload)
    (fresh_id : String) (now : Int) : List Notification :=
  ({ id := fresh_id, created_at := now, read := false,
     payload := payload } :: feed).take 50

/-- `mark_read` (lines 45-52) on one user's feed: flips the first entry with
the given id; returns the updated feed and whether an entry was found. -/
def mark_read : List Notification → String → List Notification × Bool
  | [], _ => ([], false)
  | n :: rest, nid =>
    if n.id == nid then ({ n with read := true } :: rest, true)
    else
      let t := mark_read rest nid
      (n :: t.1, t.2)

/-- `mark_all_read` (lines 55-63) on one user's feed: flips every unread
entry, returns the updated feed and the count flipped. -/
def mark_all_read : List Notification → List Notification × Nat
  | [] => ([], 0)
  | n :: rest =>
    let t := mark_all_read rest
    if !n.read then ({ n with read := true } :: t.1, t.2 + 1)
    else (n :: t.1, t.2)

/-! ## Thaw reminders (`app/services/notifications.py` lines 166-226) -/

/-- `app/models/recipe.py` `Recipe` — the columns `generate_thaw_reminders`
reads. -/
structure Recipe where
  id : Nat
  name : String
  deriving Repr, DecidableEq

/-- `app/models/recipe.py` `RecipeIngredient` — the columns
`generate_thaw_reminders` reads. -/
structure RecipeIngredient where
  recipe_id : Nat
  canonical_name : Option String
  deriving Repr, DecidableEq

/-- `app/models/meal_plan.py` `MealPlan` — the columns
`generate_thaw_reminders` reads or writes. -/
structure MealPlan where
  id : Nat
  plan_date : Int
  meal_type : String
  recipe_id : Option Nat
  completed : Bool
  thaw_reminder_sent : Bool
  deriving Repr, DecidableEq

/-- One user's slice of the tables `generate_thaw_reminders` touches. -/
structure ThawDB where
  meals : List MealPlan
  recipes : List Recipe
  ingredients : List RecipeIngredient
  pantry : List PantryItem
  deriving Repr, DecidableEq

/-- A thaw-reminder notification's back-references. -/
structure ThawAlert where
  item_id : Nat
  meal_plan_id : Nat
  deriving Repr, DecidableEq

/-- The meal-selection filter of `generate_thaw_reminders` (lines 177-183):
`plan_date.between(tomorrow, day_after)` is inclusive on both ends. -/
def thawSelect (today : Int) (m : MealPlan) : Bool :=
  decide (today + 1 ≤ m.plan_date) && decide (m.plan_date ≤ today + 2) &&
    !m.completed && m.recipe_id.isSome && !m.thaw_reminder_sent

/-- `db.query(Recipe).filter(Recipe.id == meal.recipe_id).first()`. -/
def findRecipe (recipes : List Recipe) : Option Nat → Option Recipe
  | some rid => recipes.find? (fun r => r.id == rid)
  | none => none

/-- `db.query(PantryItem).filter(canonical_name == c, location == "freezer").first()`:
unlike the freshness classifier, the location match here is exact, not
lowercased. -/
def frozenMatch (pantry : List PantryItem) (c : String) : Option PantryItem :=
  pantry.find? (fun it =>
    it.canonical_name == some c && it.location == some "freezer")

/-- The inner ingredient loop (lines 196-220) for one selected meal whose
recipe was found: one alert per ingredient with a truthy canonical name that
matches a freezer pantry item. -/
def mealThawAlerts (db : ThawDB) (rec : Recipe) (m : MealPlan) :
    List ThawAlert :=
  (db.ingredients.filter (fun ing => ing.recipe_id == rec.id)).filterMap
    (fun ing =>
      match ing.canonical_name with
      | some c =>
        if c != "" then
          (frozenMatch db.pantry c).map
            (fun it => { item_id := it.id, meal_plan_id := m.id })
        else none
      | none => none)

/-- `generate_thaw_reminders` (lines 166-226): the selected-meal list is
fixed by the query before the loop; a selected meal whose recipe lookup
fails is skipped by `continue` before the `thaw_reminder_sent` mark. -/
def generate_thaw_reminders (today : Int) (db : ThawDB) :
    ThawDB × List ThawAlert :=
  let selected := db.meals.filter (thawSelect today)
  let alerts := selected.flatMap (fun m =>
    match findRecipe db.recipes m.recipe_id with
    | none => []
    | some rec => mealThawAlerts db rec m)
  let meals' := db.meals.map (fun m =>
    if thawSelect today m && (findRecipe db.recipes m.recipe_id).isSome then
      { m with thaw_reminder_sent := true }
    else m)
  ({ db with meals := meals' }, alerts)

/-- Concrete item: dairy, purchased on day 0, printed expiration day 10,
stored in the freezer, no exact rule. -/
def dairyFreezerItem : PantryItem :=
  { id := 0, name := "milk", canonical_name := none, category := some "dairy",
    location := some "freezer", expiration_date := some 10,
    opened_date := none, purchase_date := some 0, freshness_status := none,
    freshness_expires_at := none }

/-- Concrete item: freezer-stored, purchased on day 0, no other dates. -/
def freezerRuleItem : PantryItem :=
  { id := 0, name := "chicken", canonical_name := none, category := none,
    location := some "freezer", expiration_date := none, opened_date := none,
    purchase_date := some 0, freshness_status := none,
    freshness_expires_at := none }

/-- Concrete exact rule: sealed 10 days, frozen 365 days. -/
def frozenRule : FreshnessRule :=
  { canonical_name := "chicken", category := none,
    sealed_shelf_life_days := some 10, opened_shelf_life_days := none,
    storage_location := none, storage_tips := none, freezable := some true,
    frozen_shelf_life_days := some 365, source := none }

/-- The status the classifier must report when today is `purchase + k` and
the applicable sealed shelf life is `N` days (the C3 thresholds). -/
def thresholdSpec (p N k : Int) (out : String × Option Int) : Prop :=
  out.2 = some (p + N) ∧
  (out.1 = "fresh" ↔ k ≤ N - 5) ∧
  (out.1 = "use_soon" ↔ N - 4 ≤ k ∧ k ≤ N - 2) ∧
  (out.1 = "use_today" ↔ k = N - 1) ∧
  (out.1 = "expired" ↔ N ≤ k)

/-- Number of rule rows for a canonical name. -/
def countRulesFor (rules : List FreshnessRule) (c : String) : Nat :=
  (rules.filter (fun r => r.canonical_name == c)).length

/-! ## Concrete witnesses -/

/-- An estimator that always fails. -/
def failingOracle : AIOracle := fun _ => Except.error ()

/-- The estimator exactly as wired at the source call site:
`update_item_freshness` (freshness.py line 152) passes keyword `rule=` to
`KitchenAI.calculate_freshness(self, item, rules=None)` (kitchen_ai.py
line 341), so building the call raises `TypeError` inside the `try` before
any request is made — with the shipped code the estimator call never
succeeds and the ok branch of the oracle is unreachable. -/
def kitchenAIOracle : AIOracle := fun _ => Except.error ()

/-- A dairy item with canonical name "milk", purchased on day 0. -/
def milkItem1 : PantryItem :=
  { id := 1, name := "Milk", canonical_name := some "milk",
    category := some "dairy", location := none, expiration_date := none,
    opened_date := none, purchase_date := some 0,
    freshness_status := some "fresh", freshness_expires_at := none }

/-- A second item sharing the canonical name "milk". -/
def milkItem2 : PantryItem := { milkItem1 with id := 2 }

/-- A meal planned for tomorrow, linked to recipe 5, not completed, not yet
reminded. -/
def witnessMeal : MealPlan :=
  { id := 1, plan_date := 1, meal_type := "dinner", recipe_id := some 5,
    completed := false, thaw_reminder_sent := false }

/-- The recipe the witness meal refers to. -/
def witnessRecipe : Recipe := { id := 5, name := "stew" }

/-- A one-meal database slice with no frozen ingredients. -/
def witnessThawDB : ThawDB :=
  { meals := [witnessMeal], recipes := [witnessRecipe], ingredients := [],
    pantry := [] }

/-! ## Helper lemmas on the status thresholds -/

theorem statusFromDaysRemaining_eq_fresh (d : Int) :
    statusFromDaysRemaining d = "fresh" ↔ 5 ≤ d := by
  unfold statusFromDaysRemaining
  split_ifs <;> simp <;> omega

theorem statusFromDaysRemaining_eq_use_soon (d : Int) :
    statusFromDaysRemaining d = "use_soon" ↔ 2 ≤ d ∧ d ≤ 4 := by
  unfold statusFromDaysRemaining
  split_ifs <;> simp <;> omega

theorem statusFromDaysRemaining_eq_use_today (d : Int) :
    statusFromDaysRemaining d = "use_today" ↔ d = 1 := by
  unfold statusFromDaysRemaining
  split_ifs <;> simp <;> omega

theorem statusFromDaysRemaining_eq_expired (d : Int) :
    statusFromDaysRemaining d = "expired" ↔ d ≤ 0 := by
  unfold statusFromDaysRemaining
  split_ifs <;> simp <;> omega

theorem statusFromDaysRemaining_valid (d : Int) :
    statusFromDaysRemaining d = "fresh" ∨ statusFromDaysRemaining d = "use_soon" ∨
      statusFromDaysRemaining d = "use_today" ∨
      statusFromDaysRemaining d = "expired" := by
  unfold statusFromDaysRemaining
  split_ifs <;> simp

theorem calculate_status_valid (today : Int) (item : PantryItem)
    (rule : Option FreshnessRule) :
    let st := (calculate_freshness_rule_based today item rule).1
    st = "fresh" ∨ st = "use_soon" ∨ st = "use_today" ∨ st = "expired" := by
  unfold calculate_freshness_rule_based
  rcases rule with _ | r <;> dsimp only <;> split <;> simp
  · exact statusFromDaysRemaining_valid _
  · exact statusFromDaysRemaining_valid _

/-- The exact-rule branch of the classifier never reads the storage
location. -/
theorem calc_rule_ignores_location (today : Int) (item : PantryItem)
    (r : FreshnessRule) (loc : Option String) :
    calculate_freshness_rule_based today { item with location := loc }
        (some r) =
      calculate_freshness_rule_based today item (some r) := rfl

/-- C9: an exact rule whose `opened_shelf_life_days` (resp.
`sealed_shelf_life_days`) is `0` behaves exactly like one where the field is
absent — the classifier tests the fields for Python truthiness, so a zero
shelf life falls through to the next date source. -/
theorem zero_shelf_life_falls_through (today : Int) (item : PantryItem)
    (r : FreshnessRule) :
    calculate_freshness_rule_based today item
        (some { r with opened_shelf_life_days := some 0 }) =
      calculate_freshness_rule_based today item
        (some { r with opened_shelf_life_days := none }) ∧
    calculate_freshness_rule_based today item
        (some { r with sealed_shelf_life_days := some 0 }) =
      calculate_freshness_rule_based today item
        (some { r with sealed_shelf_life_days := none }) := by
  constructor <;> simp [calculate_freshness_rule_based, intTruthy]

/-- C7: freezer extension is monotonic — classifying with
`location="freezer"` never yields an earlier effective expiration than
classifying the identical item with `location="pantry"`. -/
theorem freezer_extension_monotone (today : Int) (item : PantryItem)
    (rule : Option FreshnessRule) :
    ((calculate_freshness_rule_based today
        { item with location := some "pantry" } rule).2 = none ∧
     (calculate_freshness_rule_based today
        { item with location := some "freezer" } rule).2 = none) ∨
    ∃ dp df,
      (calculate_freshness_rule_based today
        { item with location := some "pantry" } rule).2 = some dp ∧
      (calculate_freshness_rule_based today
        { item with location := some "freezer" } rule).2 = some df ∧
      dp ≤ df := by
  have hfz : isFreezerLocation (some "freezer") = true := by decide
  have hpn : isFreezerLocation (some "pantry") = false := by decide
  rcases rule with _ | r
  · rcases hop : item.opened_date with _ | od <;>
      rcases hpu : item.purchase_date with _ | pd <;>
      rcases hex : item.expiration_date with _ | ed <;>
      simp [calculate_freshness_rule_based, hop, hpu, hex, hfz, hpn]
  · simp only [calc_rule_ignores_location]
    rcases h : (calculate_freshness_rule_based today item (some r)).2 with _ | d
    · exact Or.inl ⟨rfl, rfl⟩
    · exact Or.inr ⟨d, d, rfl, rfl, le_refl d⟩

/-- C1 counterexample: with printed expiration E = day 10, a freezer item
purchased on day 0 and classified with category defaults gets effective
expiration day 180 > E — the freezer extension is applied after the
`min` with the printed date, so printed E is not an absolute ceiling. -/
theorem printed_ceiling_counterexample :
    dairyFreezerItem.expiration_date = some 10 ∧
    (calculate_freshness_rule_based 0 dairyFreezerItem none).2 = some 180 ∧
    ¬ (180 : Int) ≤ 10 := by decide

/-- C1 amended: the effective expiration never exceeds the printed
expiration E, except in the category-defaults freezer path — no exact rule,
location "freezer", purchase date present — where it may exceed E but never
exceeds purchase_date + 180. -/
theorem printed_ceiling_amended (today : Int) (item : PantryItem)
    (rule : Option FreshnessRule) (E d : Int)
    (hE : item.expiration_date = some E)
    (hd : (calculate_freshness_rule_based today item rule).2 = some d) :
    d ≤ E ∨
      (rule = none ∧ isFreezerLocation item.location = true ∧
        ∃ p, item.purchase_date = some p ∧ d ≤ p + 180) := by
  rcases rule with _ | r
  · by_cases hfz : isFreezerLocation item.location
    · rcases hpu : item.purchase_date with _ | pd
      · rcases hop : item.opened_date with _ | od
        · simp [calculate_freshness_rule_based, hE, hop, hpu, hfz] at hd
          exact Or.inl (by omega)
        · simp [calculate_freshness_rule_based, hE, hop, hpu, hfz] at hd
          exact Or.inl (by omega)
      · rcases hop : item.opened_date with _ | od
        · simp [calculate_freshness_rule_based, hE, hop, hpu, hfz] at hd
          by_cases hdE : d ≤ E
          · exact Or.inl hdE
          · exact Or.inr ⟨rfl, hfz, pd, rfl, by omega⟩
        · simp [calculate_freshness_rule_based, hE, hop, hpu, hfz] at hd
          by_cases hdE : d ≤ E
          · exact Or.inl hdE
          · exact Or.inr ⟨rfl, hfz, pd, rfl, by omega⟩
    · refine Or.inl ?_
      rcases hop : item.opened_date with _ | od <;>
        rcases hpu : item.purchase_date with _ | pd <;>
        simp [calculate_freshness_rule_based, hE, hop, hpu, hfz] at hd <;>
        omega
  · refine Or.inl ?_
    by_cases h1 : item.opened_date.isSome && intTruthy r.opened_shelf_life_days
    · simp [calculate_freshness_rule_based, hE, h1] at hd
      omega
    · by_cases h2 : item.purchase_date.isSome &&
          intTruthy r.sealed_shelf_life_days
      · simp [calculate_freshness_rule_based, hE, h1, h2] at hd
        omega
      · simp [calculate_freshness_rule_based, hE, h1, h2] at hd
        omega


/-- C2 counterexample: for a freezer item with a purchase date classified
with an exact rule specifying `frozen_shelf_life_days = 365`, the classifier
returns the sealed candidate day 10, not the later of that candidate and the
frozen candidate — the exact-rule branch returns before the freezer block and
`frozen_shelf_life_days` is never read. -/
theorem freezer_rule_counterexample :
    isFreezerLocation freezerRuleItem.location = true ∧
    freezerRuleItem.purchase_date = some 0 ∧
    frozenRule.frozen_shelf_life_days = some 365 ∧
    (calculate_freshness_rule_based 0 freezerRuleItem
        (some frozenRule)).2 = some 10 ∧
    some (10 : Int) ≠ some (max 10 (0 + 365)) := by decide

/-- C2 amended: freezer extension happens only in the category-defaults
path.  The exact-rule branch ignores both the storage location and the
rule's `frozen_shelf_life_days`; in the defaults path the frozen shelf life
is always 180 days and the result is the later of the pre-freezer candidate
(the value the same item would get with location "pantry") and
purchase_date + 180. -/
theorem freezer_extension_defaults_only :
    (∀ (today : Int) (item : PantryItem) (r : FreshnessRule)
        (loc : Option String) (v : Option Int),
      calculate_freshness_rule_based today { item with location := loc }
          (some r) =
        calculate_freshness_rule_based today item (some r) ∧
      calculate_freshness_rule_based today item
          (some { r with frozen_shelf_life_days := v }) =
        calculate_freshness_rule_based today item (some r)) ∧
    (∀ (today p : Int) (item : PantryItem),
      item.purchase_date = some p →
      isFreezerLocation item.location = true →
      ∃ c,
        (calculate_freshness_rule_based today
            { item with location := some "pantry" } none).2 = some c ∧
        (calculate_freshness_rule_based today item none).2 =
          some (max c (p + 180))) := by
  constructor
  · exact fun today item r loc v => ⟨rfl, rfl⟩
  · intro today p item hpu hfz
    have hpn : isFreezerLocation (some "pantry") = false := by decide
    rcases hop : item.opened_date with _ | od <;>
      rcases hex : item.expiration_date with _ | E <;>
      simp [calculate_freshness_rule_based, hop, hpu, hex, hfz, hpn]


theorem thresholdSpec_of_eval (p N k : Int)
    (out : String × Option Int)
    (hout : out = (statusFromDaysRemaining (p + N - (p + k)), some (p + N))) :
    thresholdSpec p N k out := by
  subst hout
  have h : p + N - (p + k) = N - k := by ring
  refine ⟨rfl, ?_, ?_, ?_, ?_⟩ <;> dsimp only <;> rw [h]
  · rw [statusFromDaysRemaining_eq_fresh]; omega
  · rw [statusFromDaysRemaining_eq_use_soon]; omega
  · rw [statusFromDaysRemaining_eq_use_today]; omega
  · rw [statusFromDaysRemaining_eq_expired]; omega

/-- C3: for an item with only a purchase date and an applicable sealed shelf
life of N days, classified on day `purchase + k`: effective expiration is
`purchase + N`, and the status is "fresh" for k ≤ N−5, "use_soon" for
N−4 ≤ k ≤ N−2, "use_today" for k = N−1 and "expired" for k ≥ N — both when
the sealed shelf life comes from an exact rule and when it comes from the
category default (in the latter case, provided the freezer extension does not
apply). -/
theorem sealed_shelf_life_thresholds :
    (∀ (p N k : Int) (item : PantryItem) (r : FreshnessRule),
      0 < N → item.opened_date = none → item.purchase_date = some p →
      item.expiration_date = none → r.sealed_shelf_life_days = some N →
      thresholdSpec p N k
        (calculate_freshness_rule_based (p + k) item (some r))) ∧
    (∀ (p N k : Int) (item : PantryItem),
      0 < N → item.opened_date = none → item.purchase_date = some p →
      item.expiration_date = none →
      isFreezerLocation item.location = false →
      ((DEFAULT_SHELF_LIFE
          (pyToLower (item.category.getD ""))).getD (30, 14)).1 = N →
      thresholdSpec p N k
        (calculate_freshness_rule_based (p + k) item none)) := by
  constructor
  · intro p N k item r hN hop hpu hex hsl
    refine thresholdSpec_of_eval p N k _ ?_
    have hN' : intTruthy (some N) = true := by
      simp [intTruthy, bne_iff_ne]; omega
    simp [calculate_freshness_rule_based, hop, hpu, hex, hsl, hN']
  · intro p N k item hN hop hpu hex hfz hdef
    refine thresholdSpec_of_eval p N k _ ?_
    simp [calculate_freshness_rule_based, hop, hpu, hex, hfz, hdef]

/-- C4: whenever the external estimator fails (any raised exception or
unextractable payload, modelled as `Except.error`), the per-item
classification still returns a well-formed result — status, effective
expiration and changed flag computed by the rule-based fallback with
category defaults — the rule table is untouched, and the failure is never
propagated.  The hypothesis picks out the cases in which the estimator is
actually invoked (`force_ai`, or no exact rule). -/
theorem estimator_failure_fallback (today : Int) (rules : List FreshnessRule)
    (f : AIOracle) (force_ai : Bool) (item : PantryItem)
    (hfail : f item = Except.error ())
    (hbranch : force_ai = true ∨ ruleFor rules item = none) :
    (update_item_freshness today rules (some f) force_ai
        item).1.freshness_status =
      some (calculate_freshness_rule_based today item none).1 ∧
    (update_item_freshness today rules (some f) force_ai
        item).1.freshness_expires_at =
      (calculate_freshness_rule_based today item none).2 ∧
    (update_item_freshness today rules (some f) force_ai item).2.1 = rules ∧
    (update_item_freshness today rules (some f) force_ai
        item).2.2.new_status =
      some (calculate_freshness_rule_based today item none).1 ∧
    (update_item_freshness today rules (some f) force_ai
        item).2.2.effective_expiration =
      (calculate_freshness_rule_based today item none).2 ∧
    (update_item_freshness today rules (some f) force_ai item).2.2.changed =
      (item.freshness_status !=
        some (calculate_freshness_rule_based today item none).1) ∧
    ((calculate_freshness_rule_based today item none).1 = "fresh" ∨
      (calculate_freshness_rule_based today item none).1 = "use_soon" ∨
      (calculate_freshness_rule_based today item none).1 = "use_today" ∨
      (calculate_freshness_rule_based today item none).1 = "expired") := by
  have hvalid := calculate_status_valid today item none
  rcases hbranch with hb | hb
  · subst hb
    simp [update_item_freshness, hfail]
    exact hvalid
  · simp [update_item_freshness, hb, hfail]
    exact hvalid


/-- C5 (code bug): with the estimator as actually wired — the
`rule=`/`rules=` keyword mismatch makes every `ai.calculate_freshness` call
raise before any request — the success path that invokes
`_cache_freshness_rule` is unreachable, so no classification ever modifies
the rule table; in particular, classifying two items sharing canonical name
"milk" in succession from an empty table leaves zero `FreshnessRule` rows,
not the one row the first-write-wins caching design promises. -/
theorem rule_cache_unreachable :
    (∀ (today : Int) (rules : List FreshnessRule) (force_ai : Bool)
        (item : PantryItem),
      (update_item_freshness today rules (some kitchenAIOracle) force_ai
        item).2.1 = rules) ∧
    countRulesFor
      (update_item_freshness 0
        (update_item_freshness 0 [] (some kitchenAIOracle) false
          milkItem1).2.1
        (some kitchenAIOracle) false milkItem2).2.1 "milk" = 0 := by
  constructor
  · intro today rules force_ai item
    by_cases h : ((ruleFor rules item).isSome && !force_ai) = true <;>
      simp [update_item_freshness, kitchenAIOracle, h]
  · decide

theorem scan_loop_details_length (today : Int) (ai : Option AIOracle) :
    ∀ (items : List PantryItem) (rules : List FreshnessRule),
      (run_freshness_scan_loop today ai items rules).2.2.1.length =
        (items.filter hasDateInfo).length := by
  intro items
  induction items with
  | nil => intro rules; simp [run_freshness_scan_loop]
  | cons item rest ih =>
    intro rules
    by_cases hd : hasDateInfo item <;>
      simp [run_freshness_scan_loop, hd, List.filter_cons, ih]

theorem scan_loop_changes (today : Int) (ai : Option AIOracle) :
    ∀ (items : List PantryItem) (rules : List FreshnessRule),
      (run_freshness_scan_loop today ai items rules).2.2.2.1 =
        ((run_freshness_scan_loop today ai items rules).2.2.1.filter
          (fun r => r.changed)).length := by
  intro items
  induction items with
  | nil => intro rules; simp [run_freshness_scan_loop]
  | cons item rest ih =>
    intro rules
    by_cases hd : hasDateInfo item <;>
      simp [run_freshness_scan_loop, hd, List.filter_cons, ih] <;>
      split <;> simp [ih] <;> omega

theorem scan_loop_alerts (today : Int) (ai : Option AIOracle) :
    ∀ (items : List PantryItem) (rules : List FreshnessRule),
      (run_freshness_scan_loop today ai items rules).2.2.2.2 =
        ((run_freshness_scan_loop today ai items rules).2.2.1.filter
          (fun r => r.changed && isAlertStatus r.new_status)).map
          (fun r => { item_id := r.item_id, name := r.name,
                      status := r.new_status, old_status := r.old_status }) := by
  intro items
  induction items with
  | nil => intro rules; simp [run_freshness_scan_loop]
  | cons item rest ih =>
    intro rules
    by_cases hd : hasDateInfo item <;>
      simp [run_freshness_scan_loop, hd, List.filter_cons, ih] <;>
      split <;> simp [ih]

theorem scan_loop_skips (today : Int) (ai : Option AIOracle) :
    ∀ (items : List PantryItem) (rules : List FreshnessRule),
      List.Forall₂ (fun a b => hasDateInfo a = false → b = a) items
        (run_freshness_scan_loop today ai items rules).1 := by
  intro items
  induction items with
  | nil => intro rules; simp [run_freshness_scan_loop]
  | cons item rest ih =>
    intro rules
    by_cases hd : hasDateInfo item <;>
      simp only [run_freshness_scan_loop, hd, if_true, if_false,
        Bool.false_eq_true, ite_false, ite_true] <;>
      exact List.Forall₂.cons (by simp [hd]) (ih _)

theorem scan_loop_changed_flag (today : Int) (ai : Option AIOracle) :
    ∀ (items : List PantryItem) (rules : List FreshnessRule),
      ∀ r ∈ (run_freshness_scan_loop today ai items rules).2.2.1,
        r.changed = (r.old_status != r.new_status) := by
  intro items
  induction items with
  | nil => intro rules; simp [run_freshness_scan_loop]
  | cons item rest ih =>
    intro rules
    by_cases hd : hasDateInfo item <;>
      simp only [run_freshness_scan_loop, hd, if_true, if_false,
        Bool.false_eq_true, ite_false, ite_true]
    · intro r hr
      rcases List.mem_cons.mp hr with h | h
      · subst h; rfl
      · exact ih _ r h
    · exact ih rules

/-- C6: a scan processes exactly the items carrying at least one date,
skips the rest unchanged, and returns a summary whose `items_scanned` is the
number processed, whose `details` has one entry per processed item, whose
`items_changed` counts the details flagged changed (status differing from
its prior value), and whose `alerts` are exactly the changed items whose new
status is "use_today" or "expired". -/
theorem scan_summary_spec (today : Int) (rules : List FreshnessRule)
    (ai : Option AIOracle) (items : List PantryItem) :
    (run_freshness_scan today rules ai items).2.2.items_scanned =
      (items.filter hasDateInfo).length ∧
    (run_freshness_scan today rules ai items).2.2.details.length =
      (run_freshness_scan today rules ai items).2.2.items_scanned ∧
    (run_freshness_scan today rules ai items).2.2.items_changed =
      ((run_freshness_scan today rules ai items).2.2.details.filter
        (fun r => r.changed)).length ∧
    (∀ r ∈ (run_freshness_scan today rules ai items).2.2.details,
      r.changed = (r.old_status != r.new_status)) ∧
    (run_freshness_scan today rules ai items).2.2.alerts =
      ((run_freshness_scan today rules ai items).2.2.details.filter
        (fun r => r.changed && isAlertStatus r.new_status)).map
        (fun r => { item_id := r.item_id, name := r.name,
                    status := r.new_status, old_status := r.old_status }) ∧
    List.Forall₂ (fun a b => hasDateInfo a = false → b = a) items
      (run_freshness_scan today rules ai items).1 := by
  refine ⟨?_, ?_, ?_, ?_, ?_, ?_⟩
  · simpa [run_freshness_scan] using
      scan_loop_details_length today ai items rules
  · rfl
  · simpa [run_freshness_scan] using scan_loop_changes today ai items rules
  · simpa [run_freshness_scan] using
      scan_loop_changed_flag today ai items rules
  · simpa [run_freshness_scan] using scan_loop_alerts today ai items rules
  · simpa [run_freshness_scan] using scan_loop_skips today ai items rules

theorem mark_read_not_found :
    ∀ (feed : List Notification) (nid : String),
      (∀ n ∈ feed, n.id ≠ nid) → mark_read feed nid = (feed, false)
  | [], _, _ => rfl
  | n :: rest, nid, h => by
    have hbeq : (n.id == nid) = false :=
      beq_eq_false_iff_ne.mpr (h n (List.mem_cons_self n rest))
    have ihr := mark_read_not_found rest nid
      (fun m hm => h m (List.mem_cons_of_mem _ hm))
    simp [mark_read, hbeq, ihr]

theorem mark_read_length :
    ∀ (feed : List Notification) (nid : String),
      (mark_read feed nid).1.length = feed.length
  | [], _ => rfl
  | n :: rest, nid => by
    by_cases h : (n.id == nid) = true <;>
      simp [mark_read, h, mark_read_length rest nid]

theorem mark_all_read_spec :
    ∀ feed : List Notification,
      (mark_all_read feed).2 = (feed.filter (fun n => !n.read)).length ∧
      (mark_all_read feed).1 = feed.map (fun n => { n with read := true })
  | [] => ⟨rfl, rfl⟩
  | n :: rest => by
    obtain ⟨ih1, ih2⟩ := mark_all_read_spec rest
    rcases n with ⟨nid, nca, nread, npl⟩
    by_cases h : nread <;>
      simp [mark_all_read, h, List.filter_cons, ih1, ih2]

/-- C8: the notification store keeps each user's feed at most 50 long and
most-recent-first: adding inserts the new (unread) entry at the front and
truncates to 50; `mark_read` with an id absent from the feed reports
not-found and leaves the feed unchanged (and never changes the feed's
length); `mark_all_read` marks everything read and returns the number of
entries it flipped. -/
theorem notification_store_spec :
    (∀ (feed : List Notification) (payload : NotifPayload) (nid : String)
        (now : Int),
      (add_notification feed payload nid now).length ≤ 50 ∧
      (add_notification feed payload nid now).head? =
        some { id := nid, created_at := now, read := false,
               payload := payload } ∧
      (add_notification feed payload nid now).tail = feed.take 49) ∧
    (∀ (feed : List Notification) (nid : String),
      (∀ n ∈ feed, n.id ≠ nid) → mark_read feed nid = (feed, false)) ∧
    (∀ (feed : List Notification) (nid : String),
      (mark_read feed nid).1.length = feed.length) ∧
    (∀ feed : List Notification,
      (mark_all_read feed).2 = (feed.filter (fun n => !n.read)).length ∧
      (mark_all_read feed).1 =
        feed.map (fun n => { n with read := true })) := by
  refine ⟨?_, mark_read_not_found, mark_read_length, mark_all_read_spec⟩
  intro feed payload nid now
  refine ⟨?_, rfl, rfl⟩
  simpa [add_notification] using
    List.length_take_le 50
      ({ id := nid, created_at := now, read := false,
         payload := payload } :: feed)

/-! ## C10: thaw reminders are emitted at most once per meal -/

theorem thaw_db1_fields (today : Int) (db : ThawDB) :
    (generate_thaw_reminders today db).1.recipes = db.recipes ∧
    (generate_thaw_reminders today db).1.ingredients = db.ingredients ∧
    (generate_thaw_reminders today db).1.meals =
      db.meals.map (fun m =>
        if thawSelect today m &&
            (findRecipe db.recipes m.recipe_id).isSome then
          { m with thaw_reminder_sent := true }
        else m) :=
  ⟨rfl, rfl, rfl⟩

theorem thaw_alert_sources (today : Int) (db : ThawDB) :
    ∀ a ∈ (generate_thaw_reminders today db).2,
      ∃ m ∈ db.meals, thawSelect today m = true ∧ a.meal_plan_id = m.id := by
  intro a ha
  simp only [generate_thaw_reminders] at ha
  rw [List.mem_flatMap] at ha
  rcases ha with ⟨m, hm, hma⟩
  have hmem := List.mem_filter.mp hm
  refine ⟨m, hmem.1, hmem.2, ?_⟩
  rcases hrec : findRecipe db.recipes m.recipe_id with _ | rec
  · rw [hrec] at hma
    simp at hma
  · rw [hrec] at hma
    simp only [mealThawAlerts] at hma
    rw [List.mem_filterMap] at hma
    rcases hma with ⟨ing, _, hing⟩
    rcases hcn : ing.canonical_name with _ | cn
    · rw [hcn] at hing
      simp at hing
    · rw [hcn] at hing
      dsimp only at hing
      by_cases hne : (cn != "") = true
      · rw [if_pos hne] at hing
        rcases Option.map_eq_some'.mp hing with ⟨it, _, hit⟩
        rw [← hit]
      · rw [if_neg hne] at hing
        simp at hing

/-- C10: one call of the thaw-reminder generator marks
`thaw_reminder_sent` on every meal it selected — every uncompleted,
recipe-linked (by referential integrity of `recipe_id`, resolving to an
existing recipe), not-yet-reminded meal planned for the next two days,
including meals with no frozen-ingredient match — and a meal so marked
never yields a thaw alert in any later call, whatever the pantry then
contains. -/
theorem thaw_reminder_once (today : Int) (db : ThawDB)
    (hFK : ∀ m ∈ db.meals, ∀ rid, m.recipe_id = some rid →
      ∃ rec ∈ db.recipes, rec.id = rid)
    (hids : (db.meals.map (fun m => m.id)).Nodup) :
    (∀ m ∈ db.meals, thawSelect today m = true →
      ∀ m' ∈ (generate_thaw_reminders today db).1.meals, m'.id = m.id →
        m'.thaw_reminder_sent = true) ∧
    (∀ (td : Int) (pantry2 : List PantryItem),
      ∀ a ∈ (generate_thaw_reminders td
          { (generate_thaw_reminders today db).1 with
            pantry := pantry2 }).2,
        ∀ m ∈ db.meals, thawSelect today m = true →
          a.meal_plan_id ≠ m.id) := by
  set f : MealPlan → MealPlan := fun m =>
    if thawSelect today m && (findRecipe db.recipes m.recipe_id).isSome then
      { m with thaw_reminder_sent := true }
    else m with hf
  have hfid : ∀ m0, (f m0).id = m0.id := by
    intro m0
    simp only [hf]
    split <;> rfl
  have hmeals : (generate_thaw_reminders today db).1.meals =
      db.meals.map f := rfl
  have hsel_marked : ∀ m ∈ db.meals, thawSelect today m = true →
      f m = { m with thaw_reminder_sent := true } := by
    intro m hm hsel
    have hrid : m.recipe_id.isSome = true := by
      simp only [thawSelect, Bool.and_eq_true] at hsel
      exact hsel.1.2
    rcases Option.isSome_iff_exists.mp hrid with ⟨rid, hridEq⟩
    rcases hFK m hm rid hridEq with ⟨rec, hrecMem, hrecId⟩
    have hfind : (findRecipe db.recipes m.recipe_id).isSome = true := by
      rw [hridEq]
      simp only [findRecipe]
      exact List.find?_isSome.mpr ⟨rec, hrecMem, by simp [hrecId]⟩
    simp [hf, hsel, hfind]
  have huniq : ∀ m ∈ db.meals, ∀ m0 ∈ db.meals, m0.id = m.id → m0 = m := by
    intro m hm m0 hm0 hid
    exact List.inj_on_of_nodup_map hids hm0 hm hid
  have hpart1 : ∀ m ∈ db.meals, thawSelect today m = true →
      ∀ m' ∈ (generate_thaw_reminders today db).1.meals, m'.id = m.id →
        m'.thaw_reminder_sent = true := by
    intro m hm hsel m' hm' hid
    rw [hmeals] at hm'
    rcases List.mem_map.mp hm' with ⟨m0, hm0, hfm0⟩
    have hm0id : m0.id = m.id := by rw [← hid, ← hfm0, hfid]
    have : m0 = m := huniq m hm m0 hm0 hm0id
    subst this
    rw [← hfm0, hsel_marked m0 hm0 hsel]
  refine ⟨hpart1, ?_⟩
  intro td pantry2 a ha m hm hsel hLie
  have hsrc := thaw_alert_sources td
    { (generate_thaw_reminders today db).1 with pantry := pantry2 } a ha
  rcases hsrc with ⟨m', hm', hsel', hid'⟩
  have hm'meals : m' ∈ db.meals.map f := hm'
  have hsent : m'.thaw_reminder_sent = false := by
    simp only [thawSelect, Bool.and_eq_true] at hsel'
    have := hsel'.2
    simpa using this
  have : m'.thaw_reminder_sent = true := by
    apply hpart1 m hm hsel m'
    · rw [hmeals]; exact hm'meals
    · rw [← hid', hLie]
  rw [this] at hsent
  simp at hsent


theorem printed_ceiling_amended_witness :
    (180 : Int) ≤ 10 ∨
      ((none : Option FreshnessRule) = none ∧
        isFreezerLocation dairyFreezerItem.location = true ∧
        ∃ p, dairyFreezerItem.purchase_date = some p ∧
          (180 : Int) ≤ p + 180) :=
  printed_ceiling_amended 0 dairyFreezerItem none 10 180 rfl (by decide)

theorem freezer_extension_defaults_only_witness :
    ∃ c,
      (calculate_freshness_rule_based 0
          { freezerRuleItem with location := some "pantry" } none).2 =
        some c ∧
      (calculate_freshness_rule_based 0 freezerRuleItem none).2 =
        some (max c ((0 : Int) + 180)) :=
  freezer_extension_defaults_only.2 0 0 freezerRuleItem rfl (by decide)

theorem sealed_shelf_life_thresholds_witness :
    (0 : Int) < 10 ∧
      thresholdSpec 0 10 8
        (calculate_freshness_rule_based ((0 : Int) + 8) freezerRuleItem
          (some frozenRule)) :=
  ⟨by decide,
   sealed_shelf_life_thresholds.1 0 10 8 freezerRuleItem frozenRule
     (by decide) rfl rfl rfl rfl⟩

theorem estimator_failure_fallback_witness :
    (update_item_freshness 0 [] (some failingOracle) false
        dairyFreezerItem).2.1 = [] :=
  (estimator_failure_fallback 0 [] failingOracle false dairyFreezerItem rfl
    (Or.inr rfl)).2.2.1

theorem scan_summary_spec_witness :
    (run_freshness_scan 0 [] none [dairyFreezerItem]).2.2.items_scanned =
      ([dairyFreezerItem].filter hasDateInfo).length :=
  (scan_summary_spec 0 [] none [dairyFreezerItem]).1

theorem notification_store_spec_witness :
    mark_read [] "x" = ([], false) :=
  notification_store_spec.2.1 [] "x" (by simp)

theorem thaw_reminder_once_witness :
    ({ witnessMeal with thaw_reminder_sent := true } :
      MealPlan).thaw_reminder_sent = true :=
  (thaw_reminder_once 0 witnessThawDB
      (fun m hm rid hrid => by
        have hm' : m = witnessMeal := List.mem_singleton.mp hm
        subst hm'
        have h5 : 5 = rid := by simpa [witnessMeal] using hrid
        exact ⟨witnessRecipe, List.mem_singleton.mpr rfl, h5 ▸ rfl⟩)
      (by decide)).1
    witnessMeal (by decide) (by decide)
    { witnessMeal with thaw_reminder_sent := true } (by decide) rfl

end KitchenCC
